import Mathlib

/-!
Verification of the pyfacct feed-pagination and extraction engine.

We give a shallow embedding of the relevant Python code:
`pytia/utils.py` (ParserHelper, Validator), `pytia/pytia.py`
(Parser, FeedGenerator, UpdateFeedGenerator, SearchFeedGenerator,
GeneratorInfo, send_request param filtering, collection catalog from
`pytia/const.py`) and `cyberintegratioins/cyberintegrations.py`
(Parser._keys_found, _keys_exist, parse_portion, get_iocs).

JSON values are modelled by the inductive `Json`; Python `None` is
`Json.null`; Python dicts are ordered association lists with unique keys;
Python exceptions are modelled by `Except PyErr`.
-/

/-- A JSON value as handled by the Python code. Numbers are modelled as
integers (the code never computes with numeric values, it only moves them
around and compares them). An object is an ordered association list, as a
Python dict is; keys are unique in every dict the code builds. -/
inductive Json where
| null : Json
| bool (b : Bool) : Json
| num (n : Int) : Json
| str (s : String) : Json
| arr (elems : List Json) : Json
| obj (entries : List (String × Json)) : Json
deriving Repr

/-- Python exceptions raised by the embedded code. `attributeError` is the
builtin AttributeError (e.g. calling `.get` on a non-dict), `typeError` the
builtin TypeError (e.g. `len` of None), `valueError` the builtin ValueError;
`inputException` and `parserException` are the library's own classes from
`pytia/exception.py`. -/
inductive PyErr where
| attributeError : PyErr
| typeError : PyErr
| valueError (msg : String) : PyErr
| inputException (msg : String) : PyErr
| parserException (msg : String) : PyErr
deriving Repr, DecidableEq

mutual

/-- Structural equality of JSON values, modelling Python `==` on decoded
JSON data. -/
def Json.beq : Json → Json → Bool
| Json.null, Json.null => true
| Json.bool a, Json.bool b => a == b
| Json.num a, Json.num b => a == b
| Json.str a, Json.str b => a == b
| Json.arr a, Json.arr b => Json.beqList a b
| Json.obj a, Json.obj b => Json.beqEntries a b
| _, _ => false

/-- Elementwise equality of JSON lists. -/
def Json.beqList : List Json → List Json → Bool
| [], [] => true
| a :: as', b :: bs' => Json.beq a b && Json.beqList as' bs'
| _, _ => false

/-- Entrywise equality of JSON objects (Python dicts preserve insertion
order and the code never builds dicts that differ only in key order). -/
def Json.beqEntries : List (String × Json) → List (String × Json) → Bool
| [], [] => true
| (k, v) :: as', (k2, v2) :: bs' => k == k2 && Json.beq v v2 && Json.beqEntries as' bs'
| _, _ => false

end

instance : BEq Json := ⟨Json.beq⟩

/-- Python truthiness of a JSON value: `if v:` in the code. -/
def Json.truthy : Json → Bool
| Json.null => false
| Json.bool b => b
| Json.num n => n != 0
| Json.str s => s != ""
| Json.arr l => !l.isEmpty
| Json.obj kvs => !kvs.isEmpty

/-- `d.get(k, default)` on a Python dict represented as an association
list. -/
def pyGetD (kvs : List (String × Json)) (k : String) (dflt : Json) : Json :=
match kvs.find? (fun p => p.1 == k) with
| some p => p.2
| none => dflt

/-- `d.get(k)` on a Python dict: value at `k`, or None when absent. -/
def pyGet (kvs : List (String × Json)) (k : String) : Json :=
pyGetD kvs k Json.null

/-- `i.get(seg)` on an arbitrary JSON value `i`: succeeds exactly when `i`
is a dict, otherwise Python raises AttributeError. -/
def elemGet (j : Json) (k : String) : Except PyErr Json :=
match j with
| Json.obj kvs => Except.ok (pyGet kvs k)
| _ => Except.error PyErr.attributeError

/-- `key.split(".")` in Python: split a string into its dot-separated
segments (no escaping, empty segments preserved, at least one segment is
always produced). -/
def splitDotAux : List Char → List Char → List String
| [], acc => [String.mk acc.reverse]
| c :: rest, acc =>
  if c = '.' then String.mk acc.reverse :: splitDotAux rest []
  else splitDotAux rest (c :: acc)

/-- Split a dot-notation key into segments. -/
def splitDot (key : String) : List String :=
splitDotAux key.toList []

/-- A Python list comprehension `[f(i) for i in l]` over JSON values:
apply `f` to each element left to right, stopping at the first raised
exception. -/
def mapExcept (f : Json → Except PyErr Json) : List Json → Except PyErr (List Json)
| [] => Except.ok []
| i :: rest => do
  let v ← f i
  let vs ← mapExcept f rest
  Except.ok (v :: vs)

/-- The recursion of `ParserHelper.find_element_by_key` over the segment
list produced by splitting the dot-notation key. The Python code splits the
key with `key.split(".", 1)` and recurses on the remainder, which consumes
the full split left to right, so the recursion is equivalently driven by
the full segment list; `splitDot` never returns `[]`, so the `[]` case
below is unreachable from `find_element_by_key`. -/
def findSegs : List String → Json → Except PyErr Json
| [], o => Except.ok o
| [seg], o =>
  match o with
  | Json.arr l => (mapExcept (fun i => elemGet i seg) l).map Json.arr
  | Json.obj kvs => Except.ok (pyGet kvs seg)
  | _ => Except.ok o
| seg :: seg2 :: rest, o =>
  match o with
  | Json.arr l =>
    (mapExcept (fun i => elemGet i seg >>= findSegs (seg2 :: rest)) l).map Json.arr
  | Json.obj kvs => findSegs (seg2 :: rest) (pyGet kvs seg)
  | _ => Except.ok o
termination_by structural path _ => path

/-- `ParserHelper.find_element_by_key(obj, key)` from `pytia/utils.py`. -/
def find_element_by_key (o : Json) (key : String) : Except PyErr Json :=
findSegs (splitDot key) o

/-- The sentinel placeholder values dropped by `unpack_iocs`:
membership of a scalar in `['255.255.255.255', '0.0.0.0', '', None]`. -/
def isSentinel : Json → Bool
| Json.str s => s == "255.255.255.255" || s == "0.0.0.0" || s == ""
| Json.null => true
| _ => false

mutual

/-- `ParserHelper.unpack_iocs(ioc)` from `pytia/utils.py`: flatten nested
lists, drop sentinel scalars. -/
def unpack_iocs : Json → List Json
| Json.arr l => unpackList l
| j => if isSentinel j then [] else [j]

/-- The `for i in ioc: unpacked.extend(...)` loop of `unpack_iocs`. -/
def unpackList : List Json → List Json
| [] => []
| i :: rest => unpack_iocs i ++ unpackList rest

end

/-- `value.startswith("*")` on the template leaf string. -/
def startsWithStar (s : String) : Bool :=
match s.toList with
| c :: _ => c = '*'
| [] => false

/-- `value[1:]`: the string without its first character (empty input stays
empty, as in Python). -/
def dropFirstChar (s : String) : String :=
match s.toList with
| _ :: rest => String.mk rest
| [] => ""

mutual

/-- `Validator.validate_set_keys_input(keys)` from `pytia/utils.py`:
a template is nested dicts whose leaves are strings (a bare string is also
accepted at any level). -/
def validate_set_keys_input : Json → Except PyErr Unit
| Json.obj kvs => validateKeysEntries kvs
| Json.str _ => Except.ok ()
| _ => Except.error (PyErr.inputException
    "Keys should be stored in nested dicts and on the lower level it should be a string.")

/-- The `for i in keys.values()` loop of `validate_set_keys_input`. -/
def validateKeysEntries : List (String × Json) → Except PyErr Unit
| [] => Except.ok ()
| (_, v) :: rest => do
  validate_set_keys_input v
  validateKeysEntries rest

end

mutual

/-- `Validator.validate_set_iocs_keys_input(keys)` from `pytia/utils.py`:
a flat dict whose every value is a string. -/
def validate_set_iocs_keys_input : Json → Except PyErr Unit
| Json.obj kvs => iocsValuesAllStr kvs
| _ => Except.error (PyErr.inputException "Keys should be stored in a dict")

/-- The `for i in keys.values()` loop of `validate_set_iocs_keys_input`. -/
def iocsValuesAllStr : List (String × Json) → Except PyErr Unit
| [] => Except.ok ()
| (_, Json.str _) :: rest => iocsValuesAllStr rest
| _ => Except.error (PyErr.inputException "Every search path should be a string")

end

mutual

/-- One template value in the `for key, value in keys.items()` loop of
`ParserHelper.find_by_template`: a leading-`*` string leaf is copied with
the marker stripped, any other string leaf is resolved as a path over the
record, a dict value recurses into the nested template
(`cls.find_by_template(feed, value)`), and a value of any other type is
silently skipped (`none`). -/
def projectValue (feed : Json) : Json → Except PyErr (Option Json)
| Json.str s =>
  if startsWithStar s then Except.ok (some (Json.str (dropFirstChar s)))
  else (find_element_by_key feed s).map some
| Json.obj kvs => (projectEntries feed kvs).map (fun l => some (Json.obj l))
| _ => Except.ok none

/-- The loop of `find_by_template` over the template's entries, in
insertion order; a `none` from `projectValue` contributes no output key. -/
def projectEntries (feed : Json) : List (String × Json) → Except PyErr (List (String × Json))
| [] => Except.ok []
| (k, v) :: rest => do
  let pv ← projectValue feed v
  let r ← projectEntries feed rest
  Except.ok (match pv with
             | some x => (k, x) :: r
             | none => r)

end

/-- `ParserHelper.find_by_template(feed, keys)` from `pytia/utils.py`.
Calling it with a non-dict template is Python `keys.items()` on a
non-dict, an AttributeError. -/
def find_by_template (feed : Json) : Json → Except PyErr Json
| Json.obj kvs => (projectEntries feed kvs).map Json.obj
| _ => Except.error PyErr.attributeError

/-- Python `len` on a JSON value: length of a list, a dict (its number of
keys) or a string; TypeError for anything else. -/
def pyLen : Json → Except PyErr Nat
| Json.arr l => Except.ok l.length
| Json.obj kvs => Except.ok kvs.length
| Json.str s => Except.ok s.length
| _ => Except.error PyErr.typeError

/-- The `Parser` object of `pytia/pytia.py` (identical in
`cyberintegratioins/cyberintegrations.py`): one fetched page with its
attributes as computed in `__init__`. The `keys`/`iocs_keys` arguments of
the Python constructor are passed to the parsing methods explicitly
instead of being stored, and the derived `raw_json` dump is omitted. -/
structure ParserObj where
  raw : Json
  count : Json
  items : Json
  portion_size : Nat
  sequpdate : Json
  result_id : Json
deriving Repr

/-- `Parser.__init__` together with `Parser._return_items_list`:
`count = raw.get('count')`; when `count` is not None the items are
`raw.get('items', {})`, otherwise the whole page is the single item;
`portion_size = len(items)`; cursors are `raw.get('seqUpdate')` and
`raw.get('resultId')`. A non-dict page raises AttributeError
(`raw_dict.get`), a non-sized items value raises TypeError (`len`). -/
def parserInit (chunk : Json) : Except PyErr ParserObj :=
match chunk with
| Json.obj kvs =>
  let count := pyGet kvs "count"
  let items := match count with
               | Json.null => Json.arr [chunk]
               | _ => pyGetD kvs "items" (Json.obj [])
  match pyLen items with
  | Except.ok n =>
    Except.ok ⟨chunk, count, items, n, pyGet kvs "seqUpdate", pyGet kvs "resultId"⟩
  | Except.error e => Except.error e
| _ => Except.error PyErr.attributeError

/-- The `GeneratorInfo` dataclass of `pytia/pytia.py`: the session
configuration. Optional fields hold `Json.null` for Python None. -/
structure GeneratorInfo where
  collection_name : String
  session_type : String
  date_from : Json
  date_to : Json
  query : Json
  limit : Json
  apply_hunting_rules : Json
  keys : Json
  iocs_keys : Json
deriving Repr

/-- `FeedGenerator._get_params` from `pytia/pytia.py`: the shared request
parameters, as the ordered dict the code builds. -/
def base_get_params (info : GeneratorInfo) : List (String × Json) :=
[("df", info.date_from), ("dt", info.date_to), ("q", info.query),
 ("limit", info.limit), ("apply_hunting_rules", info.apply_hunting_rules)]

/-- The param filtering done by `TIAPoller.send_request`:
`{k: v for k, v in params.items() if v}` — falsy values (None, empty or
zero) are dropped before the request is sent on the wire. -/
def sentParams (params : List (String × Json)) : List (String × Json) :=
params.filter (fun p => Json.truthy p.2)

/-- `UpdateFeedGenerator._get_params`: the base params plus the
`seqUpdate` cursor. -/
def updateGetParams (info : GeneratorInfo) (sequpdate : Json) : List (String × Json) :=
base_get_params info ++ [("seqUpdate", sequpdate)]

/-- `SearchFeedGenerator._get_params`: the base params plus the
`resultId` cursor. -/
def searchGetParams (info : GeneratorInfo) (result_id : Json) : List (String × Json) :=
base_get_params info ++ [("resultId", result_id)]

/-- `UpdateFeedGenerator._reset_params`, first assignment aside:
`self.generator_info.date_from = None`. -/
def clear_df (i : GeneratorInfo) : GeneratorInfo :=
⟨i.collection_name, i.session_type, Json.null, i.date_to, i.query,
 i.limit, i.apply_hunting_rules, i.keys, i.iocs_keys⟩

/-- `SearchFeedGenerator._reset_params`, cursor assignment aside:
`date_from, date_to, query = None, None, None`. -/
def clear_df_dt_q (i : GeneratorInfo) : GeneratorInfo :=
⟨i.collection_name, i.session_type, Json.null, Json.null, Json.null,
 i.limit, i.apply_hunting_rules, i.keys, i.iocs_keys⟩

/-- One fetch issued through `TIAPoller.send_request`: the endpoint and
the params dict handed to `send_request` (before its falsy filter;
`sentParams` gives what reaches the wire). -/
structure FetchRec where
  endpoint : String
  params : List (String × Json)
deriving Repr

/-- The observable outcome of consuming a pagination generator to its
end: every fetch it issued, every portion it yielded, and the final
`total_amount` counter. -/
structure RunResult where
  fetches : List FetchRec
  portions : List ParserObj
  total_amount : Nat
deriving Repr

/-- The session-kind-specific methods of the `FeedGenerator` subclasses:
the endpoint (set in `__init__`), `_get_params` over the current info and
cursor, and `_reset_params` producing the updated info and cursor from a
yielded portion. -/
structure GenHooks where
  endpoint : String
  getParams : GeneratorInfo → Json → List (String × Json)
  resetParams : GeneratorInfo → Json → ParserObj → GeneratorInfo × Json

/-- How a generator run can fail: a Python exception propagating out of
the loop, or the page list (the modelled transport) being exhausted while
the loop still wants to fetch — the behavior on the missing response is
the transport collaborator's, outside this model. -/
inductive RunErr where
| py (e : PyErr) : RunErr
| outOfPages : RunErr
deriving Repr

/-- The `while True` loop of `FeedGenerator.create_generator` from
`pytia/pytia.py`, consumed to exhaustion: fetch a page, wrap it into a
`Parser`; a zero-size portion breaks the loop; otherwise accumulate
`total_amount`, `_reset_params`, yield, repeat. The injected transport is
modelled by the list of its successive JSON responses. -/
def create_generator (hooks : GenHooks) (info : GeneratorInfo) (cursor : Json)
    (total : Nat) : List Json → Except RunErr RunResult
| [] => Except.error RunErr.outOfPages
| chunk :: rest =>
  let ps := hooks.getParams info cursor
  match parserInit chunk with
  | Except.error e => Except.error (RunErr.py e)
  | Except.ok p =>
    if p.portion_size = 0 then
      Except.ok ⟨[⟨hooks.endpoint, ps⟩], [], total⟩
    else
      match hooks.resetParams info cursor p with
      | (info2, cursor2) =>
        match create_generator hooks info2 cursor2 (total + p.portion_size) rest with
        | Except.error e => Except.error e
        | Except.ok r =>
          Except.ok ⟨⟨hooks.endpoint, ps⟩ :: r.fetches, p :: r.portions, r.total_amount⟩

/-- `UpdateFeedGenerator`: endpoint `<collection>/updated`, `seqUpdate`
cursor advanced to the portion's `sequpdate`, `date_from` cleared after
every yielded portion. -/
def updateHooks (cn : String) : GenHooks :=
⟨cn ++ "/updated", updateGetParams,
 fun info _ p => (clear_df info, p.sequpdate)⟩

/-- `SearchFeedGenerator`: endpoint `<collection>`, `resultId` cursor
advanced to the portion's `_result_id`, `date_from`/`date_to`/`query` all
cleared after every yielded portion. -/
def searchHooks (cn : String) : GenHooks :=
⟨cn, searchGetParams,
 fun info _ p => (clear_df_dt_q info, p.result_id)⟩

/-- An update session run against the modelled transport, with the
caller-supplied initial `sequpdate`. -/
def runUpdateGenerator (info : GeneratorInfo) (sequpdate : Json)
    (pages : List Json) : Except RunErr RunResult :=
create_generator (updateHooks info.collection_name) info sequpdate 0 pages

/-- A search session run against the modelled transport;
`SearchFeedGenerator.__init__` starts with `result_id = None`. -/
def runSearchGenerator (info : GeneratorInfo) (pages : List Json) :
    Except RunErr RunResult :=
create_generator (searchHooks info.collection_name) info Json.null 0 pages

/-- The `for k in keys_road: feed = feed.get(k, {})` walk shared by
`Parser._keys_exist` and `Parser._keys_found` in
`cyberintegratioins/cyberintegrations.py`: each missing key falls back to
an empty dict; a non-dict intermediate value raises AttributeError. -/
def walkRoad : Json → List String → Except PyErr Json
| feed, [] => Except.ok feed
| feed, k :: rest =>
  match feed with
  | Json.obj kvs => walkRoad (pyGetD kvs k (Json.obj [])) rest
  | _ => Except.error PyErr.attributeError

/-- `Parser._keys_exist(feed, keys_road)`: walk the road and test Python
truthiness of what it reaches. -/
def keys_exist (feed : Json) (keys_road : List String) : Except PyErr Bool := do
let v ← walkRoad feed keys_road
Except.ok (Json.truthy v)

/-- `Parser._keys_found(feed, keys_road, check_list)` from
`cyberintegratioins/cyberintegrations.py`: walk the road; a list value
raises `ValueError("Value to check should be String not List.")` (the
builtin ValueError, not the library's InputException); otherwise return
whether `check_list` is non-empty and contains the value. -/
def keys_found (feed : Json) (keys_road : List String) (check_list : List Json) :
    Except PyErr Bool := do
let v ← walkRoad feed keys_road
match v with
| Json.arr _ => Except.error (PyErr.valueError "Value to check should be String not List.")
| _ => Except.ok (!check_list.isEmpty && check_list.any (fun c => Json.beq v c))

/-- The per-feed filter decision inside `parse_portion`/`get_iocs` of
`cyberintegratioins/cyberintegrations.py`: `Except.ok true` means the
feed is kept, `Except.ok false` means `continue` (the feed is skipped).
`filter_map` is the `(path, check_list)` pair already split into
`keys_road` and `check_list`. -/
def filterKeep (feed : Json) (keys_road : List String) (check_list : List Json)
    (ignore check_existence : Bool) : Except PyErr Bool :=
if ignore then do
  let found ← keys_found feed keys_road check_list
  Except.ok (!found)
else if check_existence then do
  let ex ← keys_exist feed keys_road
  Except.ok ex
else do
  let found ← keys_found feed keys_road check_list
  Except.ok found

/-- The `for feed in raw_dict` loop of `parse_portion`: filter (if a
`filter_map` was supplied), project through `find_by_template`, append. -/
def parsePortionLoop (effKeys : Json) (filter_map : Option (String × List Json))
    (ignore check_existence : Bool) : List Json → Except PyErr (List Json)
| [] => Except.ok []
| feed :: rest => do
  let keep ← match filter_map with
             | none => Except.ok true
             | some fm => filterKeep feed (splitDot fm.1) fm.2 ignore check_existence
  if keep then do
    let parsed ← find_by_template feed effKeys
    let r ← parsePortionLoop effKeys filter_map ignore check_existence rest
    Except.ok (parsed :: r)
  else
    parsePortionLoop effKeys filter_map ignore check_existence rest

/-- Python iteration `for feed in raw_dict` over the items value: a list
iterates its elements, a dict its keys (as strings), anything else the
code meets raises TypeError. -/
def pyIter : Json → Except PyErr (List Json)
| Json.arr l => Except.ok l
| Json.obj kvs => Except.ok (kvs.map (fun p => Json.str p.1))
| _ => Except.error PyErr.typeError

/-- `Parser.parse_portion(keys, as_json=False, filter_map, ignore,
check_existence)` from `cyberintegratioins/cyberintegrations.py`.
`selfKeys` is the `keys` stored on the `Parser` object, `keysArg` the
per-call override (None when not supplied). The `as_json` serialization
branch is omitted. -/
def parse_portion (p : ParserObj) (selfKeys : Json) (keysArg : Json)
    (filter_map : Option (String × List Json)) (ignore check_existence : Bool) :
    Except PyErr (List Json) := do
if !(Json.truthy selfKeys) && !(Json.truthy keysArg) then
  Except.error (PyErr.parserException "You didn't provide any keys for parsing portion.")
else do
  if Json.truthy keysArg then validate_set_keys_input keysArg else Except.ok ()
  let feeds ← pyIter p.items
  parsePortionLoop (if Json.truthy keysArg then keysArg else selfKeys)
    filter_map ignore check_existence feeds

/-- `find_element_by_key` called with the raw template value: the key
must be a string, `key.split` on anything else is an AttributeError. -/
def findElementByKeyJ (feed : Json) (value : Json) : Except PyErr Json :=
match value with
| Json.str s => find_element_by_key feed s
| _ => Except.error PyErr.attributeError

/-- The inner `for feed in raw_dict` loop of `get_iocs` for one
`(key, value)` pair of the IOC template: filter, resolve the path, unpack
and concatenate. The template value is only touched for feeds that pass
the filter, as in the source. -/
def getIocsFeedLoop (value : Json) (filter_map : Option (String × List Json))
    (ignore check_existence : Bool) : List Json → Except PyErr (List Json)
| [] => Except.ok []
| feed :: rest => do
  let keep ← match filter_map with
             | none => Except.ok true
             | some fm => filterKeep feed (splitDot fm.1) fm.2 ignore check_existence
  if keep then do
    let ioc ← findElementByKeyJ feed value
    let r ← getIocsFeedLoop value filter_map ignore check_existence rest
    Except.ok (unpack_iocs ioc ++ r)
  else
    getIocsFeedLoop value filter_map ignore check_existence rest

/-- The outer `for key, value in iocs_keys.items()` loop of `get_iocs`. -/
def getIocsKeysLoop (feeds : List Json) (filter_map : Option (String × List Json))
    (ignore check_existence : Bool) :
    List (String × Json) → Except PyErr (List (String × List Json))
| [] => Except.ok []
| (k, v) :: rest => do
  let vs ← getIocsFeedLoop v filter_map ignore check_existence feeds
  let r ← getIocsKeysLoop feeds filter_map ignore check_existence rest
  Except.ok ((k, vs) :: r)

/-- `Parser.get_iocs(keys, as_json=False, filter_map, ignore,
check_existence)` from `cyberintegratioins/cyberintegrations.py`. The
`as_json` branch is omitted. -/
def get_iocs (p : ParserObj) (selfIocsKeys : Json) (keysArg : Json)
    (filter_map : Option (String × List Json)) (ignore check_existence : Bool) :
    Except PyErr (List (String × List Json)) := do
if !(Json.truthy selfIocsKeys) && !(Json.truthy keysArg) then
  Except.error (PyErr.parserException "You didn't provide any keys for getting IOCs.")
else do
  if Json.truthy keysArg then validate_set_iocs_keys_input keysArg else Except.ok ()
  let iocsKeys := if Json.truthy keysArg then keysArg else selfIocsKeys
  match iocsKeys with
  | Json.obj kvs => do
    let feeds ← pyIter p.items
    getIocsKeysLoop feeds filter_map ignore check_existence kvs
  | _ => Except.error PyErr.attributeError

/-- The two date formats accepted by most collections
(`CollectionConsts.COLLECTIONS_INFO` in `pytia/const.py`). -/
def baseDateFormats : List String := ["%Y-%m-%d", "%Y-%m-%dT%H:%M:%S%z"]

/-- `CollectionConsts.COLLECTIONS_INFO` from `pytia/const.py`: the
collection catalog, mapping each collection name to its accepted date
formats. -/
def COLLECTIONS_INFO : List (String × List String) :=
[("compromised/account", baseDateFormats),
 ("compromised/card", baseDateFormats),
 ("compromised/breached", ["%Y-%m-%d"]),
 ("compromised/reaper", baseDateFormats),
 ("compromised/mule", baseDateFormats),
 ("compromised/imei", baseDateFormats),
 ("attacks/ddos", baseDateFormats),
 ("attacks/phishing", baseDateFormats),
 ("attacks/phishing_kit", baseDateFormats),
 ("attacks/deface", baseDateFormats),
 ("suspicious_ip/tor_node", baseDateFormats),
 ("suspicious_ip/open_proxy", baseDateFormats),
 ("suspicious_ip/socks_proxy", baseDateFormats),
 ("malware/targeted_malware", baseDateFormats),
 ("malware/malware", baseDateFormats),
 ("malware/cnc", baseDateFormats),
 ("osi/public_leak", baseDateFormats),
 ("osi/git_leak", baseDateFormats),
 ("osi/vulnerability", baseDateFormats),
 ("apt/threat_actor", baseDateFormats),
 ("apt/threat", baseDateFormats),
 ("bp/phishing", baseDateFormats),
 ("bp/phishing_kit", baseDateFormats),
 ("hi/threat", baseDateFormats),
 ("hi/threat_actor", baseDateFormats)]

/-- `CollectionConsts.ONLY_SEARCH_COLLECTIONS` from `pytia/const.py`. -/
def ONLY_SEARCH_COLLECTIONS : List String :=
["compromised/breached", "compromised/reaper"]

/-- The catalog's key set, `CollectionConsts.COLLECTIONS_INFO.keys()`. -/
def collectionNames : List String := COLLECTIONS_INFO.map (fun p => p.1)

/-- `Validator.validate_collection_name(collection_name, method)` from
`pytia/utils.py`: an update session over a search-only collection, then
any name outside the catalog, raise InputException. -/
def validate_collection_name (collection_name : String) (method : Option String) :
    Except PyErr Unit :=
if method == some "update" && ONLY_SEARCH_COLLECTIONS.contains collection_name then
  Except.error (PyErr.inputException
    (collection_name ++ " collection must be used only with a search generator."))
else if !(collectionNames.contains collection_name) then
  Except.error (PyErr.inputException
    ("Invalid collection name " ++ collection_name ++ ", should be one of this "
      ++ String.intercalate ", " collectionNames))
else Except.ok ()

/-- `Validator.validate_date_format(date, formats)` from
`pytia/utils.py`. The semantics of `datetime.strptime` (a stdlib
collaborator, not repository code) is abstracted into the predicate
`strptime_ok date fmt`; a non-string date makes every `strptime` attempt
raise, which the loop swallows, ending in InputException — exactly the
`false` branch here. -/
def validate_date_format (strptime_ok : String → String → Bool) (date : Json)
    (formats : List String) : Except PyErr Unit :=
if formats.any (fun f => match date with
                         | Json.str s => strptime_ok s f
                         | _ => false) then Except.ok ()
else Except.error (PyErr.inputException
  ("Invalid date, please use one of this formats: "
    ++ String.intercalate ", " formats ++ "."))

/-- Python `int(x)`: numbers convert, numeric strings parse, anything
else raises. -/
def pyInt : Json → Except PyErr Int
| Json.num n => Except.ok n
| Json.bool b => Except.ok (if b then 1 else 0)
| Json.str s =>
  match s.toInt? with
  | some n => Except.ok n
  | none => Except.error (PyErr.valueError
      ("invalid literal for int() with base 10: " ++ s))
| _ => Except.error PyErr.typeError

/-- `GeneratorInfo.__post_init__` from `pytia/pytia.py` (via
`__validate_default_fields`): validate the collection name for the
session type, then each supplied date against the collection's formats,
then the limit with `int()`; on success the dataclass instance exists. -/
def mkGeneratorInfo (strptime_ok : String → String → Bool)
    (collection_name session_type : String)
    (date_from date_to query limit apply_hunting_rules keys iocs_keys : Json) :
    Except PyErr GeneratorInfo := do
validate_collection_name collection_name (some session_type)
let fmts := match COLLECTIONS_INFO.find? (fun p => p.1 == collection_name) with
            | some p => p.2
            | none => []
if Json.truthy date_from then validate_date_format strptime_ok date_from fmts
  else Except.ok ()
if Json.truthy date_to then validate_date_format strptime_ok date_to fmts
  else Except.ok ()
if Json.truthy limit then (pyInt limit).map (fun _ => ()) else Except.ok ()
Except.ok ⟨collection_name, session_type, date_from, date_to, query, limit,
           apply_hunting_rules, keys, iocs_keys⟩

/-- `TIAPoller.create_update_generator` from `pytia/pytia.py`: build and
validate the `GeneratorInfo` (session type `"update"`), then return the
generator. The generator is returned as a function of the transport's
page list: no fetch can occur before a page list is supplied, so a
validation error means the transport collaborator is never called. -/
def create_update_generator (strptime_ok : String → String → Bool)
    (collection_name : String)
    (date_from date_to query sequpdate limit apply_hunting_rules keys iocs_keys : Json) :
    Except PyErr (List Json → Except RunErr RunResult) := do
let info ← mkGeneratorInfo strptime_ok collection_name "update" date_from date_to
  query limit apply_hunting_rules keys iocs_keys
Except.ok (fun pages => runUpdateGenerator info sequpdate pages)

/-- `TIAPoller.create_search_generator` from `pytia/pytia.py`: same as
the update variant with session type `"search"` and no initial cursor. -/
def create_search_generator (strptime_ok : String → String → Bool)
    (collection_name : String)
    (date_from date_to query limit apply_hunting_rules keys iocs_keys : Json) :
    Except PyErr (List Json → Except RunErr RunResult) := do
let info ← mkGeneratorInfo strptime_ok collection_name "search" date_from date_to
  query limit apply_hunting_rules keys iocs_keys
Except.ok (fun pages => runSearchGenerator info pages)

/-- A JSON value that Python `find_element_by_key` dispatches on as a
container: a list or a dict. -/
def isContainer : Json → Bool
| Json.arr _ => true
| Json.obj _ => true
| _ => false

/-- A JSON value that is a list. -/
def isArr : Json → Bool
| Json.arr _ => true
| _ => false

/-- Lookup of a request parameter by name in the params dict handed to
`send_request`. -/
def paramLookup (params : List (String × Json)) (k : String) : Option Json :=
(params.find? (fun q => q.1 == k)).map (fun q => q.2)

/-- Whether a finished computation raised the library's InputException. -/
def raisedInputException : Except PyErr Bool → Bool
| Except.error (PyErr.inputException _) => true
| _ => false

mutual

/-- Spec-side well-formedness for the safety analysis of
`find_element_by_key`: every list anywhere in the value contains only
dicts (so every `i.get` the resolver can perform is on a dict). -/
def objArraysOnly : Json → Bool
| Json.arr l => arrElemsObjOnly l
| Json.obj kvs => entriesObjOnly kvs
| _ => true

/-- Every element of the list is a dict whose values again satisfy
`objArraysOnly`. -/
def arrElemsObjOnly : List Json → Bool
| [] => true
| Json.obj kvs :: rest => entriesObjOnly kvs && arrElemsObjOnly rest
| _ :: _ => false

/-- Every value of the dict satisfies `objArraysOnly`. -/
def entriesObjOnly : List (String × Json) → Bool
| [] => true
| (_, v) :: rest => objArraysOnly v && entriesObjOnly rest

end

mutual

/-- Spec side, for the unpacking claim: the scalar (non-list) leaves of a
JSON value in depth-first left-to-right order, recursing through lists
only. -/
def scalarLeaves : Json → List Json
| Json.arr l => scalarLeavesList l
| j => [j]

/-- `scalarLeaves` over a list of values, concatenated in order. -/
def scalarLeavesList : List Json → List Json
| [] => []
| i :: rest => scalarLeaves i ++ scalarLeavesList rest

end

mutual

/-- Spec side, from the template-projection claim: the output value
mirrors the template value over the given record — a leaf whose string
starts with the `*` sentinel maps to the value with the marker stripped,
verbatim; a leaf path string maps to the path-resolution result over the
record; a nested template maps to the recursive projection. -/
def mirrorsValue (feed : Json) : Json → Json → Bool
| Json.str s, out =>
  if startsWithStar s then Json.beq out (Json.str (dropFirstChar s))
  else match find_element_by_key feed s with
       | Except.ok rv => Json.beq out rv
       | Except.error _ => false
| Json.obj tkvs, out =>
  match out with
  | Json.obj okvs => mirrorsEntriesSpec feed tkvs okvs
  | _ => false
| _, _ => false

/-- The output object has exactly the template's keys, in the template's
order, each value mirroring the corresponding template value. -/
def mirrorsEntriesSpec (feed : Json) :
    List (String × Json) → List (String × Json) → Bool
| [], [] => true
| (k, tv) :: trest, (k2, ov) :: orest =>
  k == k2 && mirrorsValue feed tv ov && mirrorsEntriesSpec feed trest orest
| _, _ => false

end

/-- Parse a list of pages in order into the portions the generator would
build from them; used to phrase hypotheses about page sequences. -/
def parseAll : List Json → Except PyErr (List ParserObj)
| [] => Except.ok []
| c :: cs => do
  let p ← parserInit c
  let ps ← parseAll cs
  Except.ok (p :: ps)

/-- An example page for pagination runs: two items, cursors set. -/
def pageU (su : Int) : Json :=
Json.obj [("count", Json.num 9), ("items", Json.arr [Json.obj [], Json.obj []]),
          ("seqUpdate", Json.num su), ("resultId", Json.str "abc")]

/-- An example terminal page: zero items. -/
def pageEmptyEx : Json :=
Json.obj [("count", Json.num 9), ("items", Json.arr [])]

/-- An example session configuration with all one-shot filters set. -/
def infoEx : GeneratorInfo :=
⟨"compromised/account", "update", Json.str "2021-01-01", Json.str "2021-02-01",
 Json.str "tag", Json.num 3, Json.null, Json.null, Json.null⟩

/-- The portion parsed from `pageU su`. -/
def portionU (su : Int) : ParserObj :=
⟨pageU su, Json.num 9, Json.arr [Json.obj [], Json.obj []], 2,
 Json.num su, Json.str "abc"⟩

/-- The portion parsed from the terminal page. -/
def p0Ex : ParserObj :=
⟨pageEmptyEx, Json.num 9, Json.arr [], 0, Json.null, Json.null⟩

/-- Hypothesis shape for the filter claims: walking the filter road on the
record succeeds and reaches a non-list value. -/
def walkNonList (roadStr : String) (feed : Json) : Prop :=
∃ v, walkRoad feed (splitDot roadStr) = Except.ok v ∧ isArr v = false

/-- A record for the filter examples. -/
def feedA : Json := Json.obj [("sev", Json.str "low"), ("x", Json.num 1)]

/-- A one-feed portion for the filter examples. -/
def pEx10 : ParserObj :=
⟨Json.obj [("count", Json.num 1), ("items", Json.arr [feedA])],
 Json.num 1, Json.arr [feedA], 1, Json.null, Json.null⟩

mutual

theorem Json.beq_refl : ∀ j : Json, Json.beq j j = true
| Json.null => rfl
| Json.bool b => by simp [Json.beq]
| Json.num n => by simp [Json.beq]
| Json.str s => by simp [Json.beq]
| Json.arr l => by simpa [Json.beq] using Json.beqList_refl l
| Json.obj kvs => by simpa [Json.beq] using Json.beqEntries_refl kvs

theorem Json.beqList_refl : ∀ l : List Json, Json.beqList l l = true
| [] => rfl
| a :: rest => by
  simp only [Json.beqList, Bool.and_eq_true]
  exact ⟨Json.beq_refl a, Json.beqList_refl rest⟩

theorem Json.beqEntries_refl :
    ∀ kvs : List (String × Json), Json.beqEntries kvs kvs = true
| [] => rfl
| (k, v) :: rest => by
  simp only [Json.beqEntries, Bool.and_eq_true]
  exact ⟨⟨by simp, Json.beq_refl v⟩, Json.beqEntries_refl rest⟩

end

theorem exceptBind_ok {α β : Type} {x : Except PyErr α} {f : α → Except PyErr β}
    {b : β} (h : (x >>= f) = Except.ok b) : ∃ a, x = Except.ok a ∧ f a = Except.ok b := by
  cases x with
  | error e => simp [Bind.bind, Except.bind] at h
  | ok a => exact ⟨a, rfl, by simpa [Bind.bind, Except.bind] using h⟩

theorem parseAll_length : ∀ {chunks : List Json} {ps : List ParserObj},
    parseAll chunks = Except.ok ps → ps.length = chunks.length := by
  intro chunks
  induction chunks with
  | nil =>
    intro ps h
    simp only [parseAll] at h
    have h2 : ([] : List ParserObj) = ps := by simpa using h
    simp [h2.symm]
  | cons c cs ih =>
    intro ps h
    simp only [parseAll] at h
    obtain ⟨p, hp, h2⟩ := exceptBind_ok h
    obtain ⟨ps', hps', h3⟩ := exceptBind_ok h2
    have h4 : p :: ps' = ps := by simpa using h3
    subst h4
    simp [ih hps']

theorem clear_df_idem (i : GeneratorInfo) : clear_df (clear_df i) = clear_df i := rfl

theorem clear_df_dt_q_idem (i : GeneratorInfo) :
    clear_df_dt_q (clear_df_dt_q i) = clear_df_dt_q i := rfl

theorem update_create_run : ∀ (cn : String) (chunks : List Json) (ps : List ParserObj)
    (info : GeneratorInfo) (cursor : Json) (total : Nat) (lastChunk : Json)
    (p0 : ParserObj) (rest : List Json),
    parseAll chunks = Except.ok ps →
    (∀ p ∈ ps, p.portion_size ≠ 0) →
    parserInit lastChunk = Except.ok p0 → p0.portion_size = 0 →
    create_generator (updateHooks cn) info cursor total (chunks ++ lastChunk :: rest)
      = Except.ok
        ⟨⟨cn ++ "/updated", updateGetParams info cursor⟩ ::
           ps.map (fun p => ⟨cn ++ "/updated",
                             updateGetParams (clear_df info) p.sequpdate⟩),
         ps,
         total + (ps.map (fun p => p.portion_size)).sum⟩ := by
  intro cn chunks
  induction chunks with
  | nil =>
    intro ps info cursor total lastChunk p0 rest hm hpos h0 hsz
    simp only [parseAll] at hm
    have h2 : ([] : List ParserObj) = ps := by simpa using hm
    subst h2
    simp [create_generator, h0, hsz, updateHooks]
  | cons c cs ih =>
    intro ps info cursor total lastChunk p0 rest hm hpos h0 hsz
    simp only [parseAll] at hm
    obtain ⟨p, hp, h2⟩ := exceptBind_ok hm
    obtain ⟨ps', hps', h3⟩ := exceptBind_ok h2
    have h4 : p :: ps' = ps := by simpa using h3
    subst h4
    have hpnz : p.portion_size ≠ 0 := hpos p (by simp)
    have hrec := ih ps' (clear_df info) p.sequpdate (total + p.portion_size)
      lastChunk p0 rest hps' (fun q hq => hpos q (by simp [hq])) h0 hsz
    rw [List.cons_append]
    simp only [create_generator, hp, updateHooks]
    rw [if_neg hpnz]
    simp only [updateHooks] at hrec
    rw [hrec]
    simp [clear_df_idem, Nat.add_assoc]

theorem search_create_run : ∀ (cn : String) (chunks : List Json) (ps : List ParserObj)
    (info : GeneratorInfo) (cursor : Json) (total : Nat) (lastChunk : Json)
    (p0 : ParserObj) (rest : List Json),
    parseAll chunks = Except.ok ps →
    (∀ p ∈ ps, p.portion_size ≠ 0) →
    parserInit lastChunk = Except.ok p0 → p0.portion_size = 0 →
    create_generator (searchHooks cn) info cursor total (chunks ++ lastChunk :: rest)
      = Except.ok
        ⟨⟨cn, searchGetParams info cursor⟩ ::
           ps.map (fun p => ⟨cn, searchGetParams (clear_df_dt_q info) p.result_id⟩),
         ps,
         total + (ps.map (fun p => p.portion_size)).sum⟩ := by
  intro cn chunks
  induction chunks with
  | nil =>
    intro ps info cursor total lastChunk p0 rest hm hpos h0 hsz
    simp only [parseAll] at hm
    have h2 : ([] : List ParserObj) = ps := by simpa using hm
    subst h2
    simp [create_generator, h0, hsz, searchHooks]
  | cons c cs ih =>
    intro ps info cursor total lastChunk p0 rest hm hpos h0 hsz
    simp only [parseAll] at hm
    obtain ⟨p, hp, h2⟩ := exceptBind_ok hm
    obtain ⟨ps', hps', h3⟩ := exceptBind_ok h2
    have h4 : p :: ps' = ps := by simpa using h3
    subst h4
    have hpnz : p.portion_size ≠ 0 := hpos p (by simp)
    have hrec := ih ps' (clear_df_dt_q info) p.result_id (total + p.portion_size)
      lastChunk p0 rest hps' (fun q hq => hpos q (by simp [hq])) h0 hsz
    rw [List.cons_append]
    simp only [create_generator, hp, searchHooks]
    rw [if_neg hpnz]
    simp only [searchHooks] at hrec
    rw [hrec]
    simp [clear_df_dt_q_idem, Nat.add_assoc]

theorem paramLookup_sentParams_none :
    ∀ (params : List (String × Json)) (k : String),
    (∀ v, (k, v) ∈ params → Json.truthy v = false) →
    paramLookup (sentParams params) k = none := by
  intro params k
  induction params with
  | nil => intro _; rfl
  | cons hd tl ih =>
    intro h
    obtain ⟨k', v⟩ := hd
    have htl : ∀ v, (k, v) ∈ tl → Json.truthy v = false :=
      fun v' hv' => h v' (List.mem_cons_of_mem _ hv')
    by_cases hk : k' = k
    · subst hk
      have hv : Json.truthy v = false := h v (by simp)
      simp [sentParams, List.filter_cons, hv]
      simpa [sentParams] using ih htl
    · cases ht : Json.truthy v with
      | false =>
        simp [sentParams, List.filter_cons, ht]
        simpa [sentParams] using ih htl
      | true =>
        have hk2 : (k' == k) = false := by simpa using hk
        simp [sentParams, List.filter_cons, ht, paramLookup, List.find?, hk2]
        simpa [sentParams, paramLookup] using ih htl

theorem pyGet_missing : ∀ (kvs : List (String × Json)) (s : String),
    (∀ p ∈ kvs, p.1 ≠ s) → pyGet kvs s = Json.null := by
  intro kvs s h
  induction kvs with
  | nil => rfl
  | cons hd tl ih =>
    have h1 : hd.1 ≠ s := h hd (by simp)
    have h2 : (hd.1 == s) = false := by simpa using h1
    have htl := ih (fun p hp => h p (List.mem_cons_of_mem _ hp))
    simpa [pyGet, pyGetD, List.find?, h2] using htl

theorem pyGet_objArraysOnly : ∀ (kvs : List (String × Json)) (k : String),
    entriesObjOnly kvs = true → objArraysOnly (pyGet kvs k) = true := by
  intro kvs k h
  induction kvs with
  | nil => rfl
  | cons hd tl ih =>
    obtain ⟨k', v⟩ := hd
    simp only [entriesObjOnly, Bool.and_eq_true] at h
    by_cases hk : (k' == k) = true
    · simpa [pyGet, pyGetD, List.find?, hk] using h.1
    · have hk2 : (k' == k) = false := by simpa using hk
      have htl := ih h.2
      simpa [pyGet, pyGetD, List.find?, hk2] using htl

theorem mapExcept_elemGet_ok : ∀ (seg : String) (l : List Json),
    arrElemsObjOnly l = true →
    ∃ vs, mapExcept (fun i => elemGet i seg) l = Except.ok vs := by
  intro seg l
  induction l with
  | nil => intro _; exact ⟨[], rfl⟩
  | cons i rest ih =>
    intro h
    match i, h with
    | Json.obj kvs, h =>
      simp only [arrElemsObjOnly, Bool.and_eq_true] at h
      obtain ⟨vs, hvs⟩ := ih h.2
      refine ⟨pyGet kvs seg :: vs, ?_⟩
      simp only [mapExcept]
      rw [hvs]
      rfl

theorem mapExcept_elemGet_findSegs_ok : ∀ (seg : String) (path2 : List String)
    (l : List Json),
    (∀ j, objArraysOnly j = true → ∃ v, findSegs path2 j = Except.ok v) →
    arrElemsObjOnly l = true →
    ∃ vs, mapExcept (fun i => elemGet i seg >>= findSegs path2) l = Except.ok vs := by
  intro seg path2 l hrec
  induction l with
  | nil => intro _; exact ⟨[], rfl⟩
  | cons i rest ih =>
    intro h
    match i, h with
    | Json.obj kvs, h =>
      simp only [arrElemsObjOnly, Bool.and_eq_true] at h
      obtain ⟨vs, hvs⟩ := ih h.2
      obtain ⟨v, hv⟩ := hrec (pyGet kvs seg) (pyGet_objArraysOnly kvs seg h.1)
      refine ⟨v :: vs, ?_⟩
      simp only [mapExcept]
      rw [hvs]
      show (elemGet (Json.obj kvs) seg >>= findSegs path2) >>= _ = _
      rw [show elemGet (Json.obj kvs) seg = Except.ok (pyGet kvs seg) from rfl]
      rw [show (Except.ok (pyGet kvs seg) >>= findSegs path2 : Except PyErr Json)
            = findSegs path2 (pyGet kvs seg) from rfl]
      rw [hv]
      rfl

theorem findSegs_total : ∀ (path : List String) (j : Json),
    objArraysOnly j = true → ∃ v, findSegs path j = Except.ok v := by
  intro path
  induction path with
  | nil => intro j _; exact ⟨j, rfl⟩
  | cons seg rest ih =>
    intro j h
    cases rest with
    | nil =>
      cases j with
      | arr l =>
        obtain ⟨vs, hvs⟩ := mapExcept_elemGet_ok seg l (by simpa [objArraysOnly] using h)
        exact ⟨Json.arr vs, by simp [findSegs, hvs, Except.map]⟩
      | obj kvs => exact ⟨pyGet kvs seg, rfl⟩
      | null => exact ⟨Json.null, rfl⟩
      | bool b => exact ⟨Json.bool b, rfl⟩
      | num n => exact ⟨Json.num n, rfl⟩
      | str s => exact ⟨Json.str s, rfl⟩
    | cons seg2 rest2 =>
      cases j with
      | arr l =>
        obtain ⟨vs, hvs⟩ := mapExcept_elemGet_findSegs_ok seg (seg2 :: rest2) l ih
          (by simpa [objArraysOnly] using h)
        exact ⟨Json.arr vs, by simp [findSegs, hvs, Except.map]⟩
      | obj kvs =>
        exact ih (pyGet kvs seg)
          (pyGet_objArraysOnly kvs seg (by simpa [objArraysOnly] using h))
      | null => exact ⟨Json.null, rfl⟩
      | bool b => exact ⟨Json.bool b, rfl⟩
      | num n => exact ⟨Json.num n, rfl⟩
      | str s => exact ⟨Json.str s, rfl⟩

mutual

theorem unpack_iocs_eq_filter : ∀ j : Json,
    unpack_iocs j = (scalarLeaves j).filter (fun x => !isSentinel x)
| Json.arr l => by
  simpa [unpack_iocs, scalarLeaves] using unpackList_eq_filter l
| Json.null => by simp [unpack_iocs, scalarLeaves, isSentinel]
| Json.bool b => by simp [unpack_iocs, scalarLeaves, isSentinel]
| Json.num n => by simp [unpack_iocs, scalarLeaves, isSentinel]
| Json.str s => by
  cases h : isSentinel (Json.str s) with
  | false => simp [unpack_iocs, scalarLeaves, h]
  | true => simp [unpack_iocs, scalarLeaves, h]
| Json.obj kvs => by simp [unpack_iocs, scalarLeaves, isSentinel]

theorem unpackList_eq_filter : ∀ l : List Json,
    unpackList l = (scalarLeavesList l).filter (fun x => !isSentinel x)
| [] => rfl
| i :: rest => by
  simp [unpackList, scalarLeavesList, List.filter_append,
        unpack_iocs_eq_filter i, unpackList_eq_filter rest]

end

mutual

theorem scalarLeaves_not_arr : ∀ (j x : Json), x ∈ scalarLeaves j → isArr x = false
| Json.arr l, x => fun h =>
  scalarLeavesList_not_arr l x (by simpa [scalarLeaves] using h)
| Json.null, x => by intro h; simp [scalarLeaves] at h; simp [h, isArr]
| Json.bool b, x => by intro h; simp [scalarLeaves] at h; simp [h, isArr]
| Json.num n, x => by intro h; simp [scalarLeaves] at h; simp [h, isArr]
| Json.str s, x => by intro h; simp [scalarLeaves] at h; simp [h, isArr]
| Json.obj kvs, x => by intro h; simp [scalarLeaves] at h; simp [h, isArr]

theorem scalarLeavesList_not_arr : ∀ (l : List Json) (x : Json),
    x ∈ scalarLeavesList l → isArr x = false
| [], x => by intro h; simp [scalarLeavesList] at h
| i :: rest, x => by
  intro h
  simp only [scalarLeavesList, List.mem_append] at h
  cases h with
  | inl h => exact scalarLeaves_not_arr i x h
  | inr h => exact scalarLeavesList_not_arr rest x h

end

mutual

theorem projectValue_mirrors : ∀ (feed v : Json) (opv : Option Json),
    validate_set_keys_input v = Except.ok () → projectValue feed v = Except.ok opv →
    ∃ pv, opv = some pv ∧ mirrorsValue feed v pv = true
| feed, Json.str s, opv, hv, hp => by
  cases hs : startsWithStar s with
  | true =>
    refine ⟨Json.str (dropFirstChar s), ?_, ?_⟩
    · simpa [projectValue, hs] using hp.symm
    · simp [mirrorsValue, hs, Json.beq_refl]
  | false =>
    simp only [projectValue, hs, Bool.false_eq_true, if_false] at hp
    cases hrv : find_element_by_key feed s with
    | error e => simp [hrv, Except.map] at hp
    | ok rv =>
      refine ⟨rv, ?_, ?_⟩
      · rw [hrv] at hp
        simpa [Except.map] using hp.symm
      · simp [mirrorsValue, hs, hrv, Json.beq_refl]
| feed, Json.obj kvs, opv, hv, hp => by
  simp only [projectValue] at hp
  cases hpe : projectEntries feed kvs with
  | error e => rw [hpe] at hp; simp [Except.map] at hp
  | ok l =>
    have hm := projectEntries_mirrors feed kvs l (by simpa [validate_set_keys_input] using hv) hpe
    refine ⟨Json.obj l, ?_, ?_⟩
    · rw [hpe] at hp; simpa [Except.map] using hp.symm
    · simpa [mirrorsValue] using hm
| feed, Json.null, opv, hv, hp => by simp [validate_set_keys_input] at hv
| feed, Json.bool b, opv, hv, hp => by simp [validate_set_keys_input] at hv
| feed, Json.num n, opv, hv, hp => by simp [validate_set_keys_input] at hv
| feed, Json.arr l, opv, hv, hp => by simp [validate_set_keys_input] at hv

theorem projectEntries_mirrors : ∀ (feed : Json) (kvs out : List (String × Json)),
    validateKeysEntries kvs = Except.ok () → projectEntries feed kvs = Except.ok out →
    mirrorsEntriesSpec feed kvs out = true
| feed, [], out, hv, hp => by
  have h2 : ([] : List (String × Json)) = out := by simpa [projectEntries] using hp
  subst h2
  rfl
| feed, (k, v) :: rest, out, hv, hp => by
  simp only [validateKeysEntries] at hv
  obtain ⟨u, hu, hv2⟩ := exceptBind_ok hv
  simp only [projectEntries] at hp
  obtain ⟨opv, hopv, hp2⟩ := exceptBind_ok hp
  obtain ⟨r, hr, hp3⟩ := exceptBind_ok hp2
  have hu2 : validate_set_keys_input v = Except.ok () := by
    cases u; exact hu
  obtain ⟨pv, hpv, hmv⟩ := projectValue_mirrors feed v opv hu2 hopv
  subst hpv
  have hout : (k, pv) :: r = out := by simpa using hp3
  subst hout
  have hrest := projectEntries_mirrors feed rest r hv2 hr
  simp [mirrorsEntriesSpec, hmv, hrest]

end

/-- Claim C4: path resolution with one remaining segment returns, for a
list, the list of per-element segment lookups (a lookup on a dict never
errors, and a missing key gives null); for an object, the value at the
segment or null if absent; for a scalar or null, the node unchanged. With
more than one segment it recurses on the first segment's lookup, mapping
over lists so that list nesting is preserved. In particular
`resolve([{"a":1},{"a":2}], "a") == [1,2]` and
`resolve({"x":[{"y":1},{"y":2}]}, "x.y") == [1,2]`. -/
theorem claim_C4_path_resolution :
    (∀ (seg : String) (kvs : List (String × Json)),
       findSegs [seg] (Json.obj kvs) = Except.ok (pyGet kvs seg)) ∧
    (∀ (seg : String) (kvs : List (String × Json)),
       (∀ p ∈ kvs, p.1 ≠ seg) → pyGet kvs seg = Json.null) ∧
    (∀ (seg : String) (l : List Json),
       findSegs [seg] (Json.arr l)
         = (mapExcept (fun i => elemGet i seg) l).map Json.arr) ∧
    (∀ (seg : String) (kvs : List (String × Json)),
       elemGet (Json.obj kvs) seg = Except.ok (pyGet kvs seg)) ∧
    (∀ (seg : String) (j : Json), isContainer j = false →
       findSegs [seg] j = Except.ok j) ∧
    (∀ (seg seg2 : String) (rest : List String) (kvs : List (String × Json)),
       findSegs (seg :: seg2 :: rest) (Json.obj kvs)
         = findSegs (seg2 :: rest) (pyGet kvs seg)) ∧
    (∀ (seg seg2 : String) (rest : List String) (l : List Json),
       findSegs (seg :: seg2 :: rest) (Json.arr l)
         = (mapExcept (fun i => elemGet i seg >>= findSegs (seg2 :: rest)) l).map
             Json.arr) ∧
    (∀ (seg seg2 : String) (rest : List String) (j : Json), isContainer j = false →
       findSegs (seg :: seg2 :: rest) j = Except.ok j) ∧
    find_element_by_key
      (Json.arr [Json.obj [("a", Json.num 1)], Json.obj [("a", Json.num 2)]]) "a"
      = Except.ok (Json.arr [Json.num 1, Json.num 2]) ∧
    find_element_by_key
      (Json.obj [("x", Json.arr [Json.obj [("y", Json.num 1)],
                                 Json.obj [("y", Json.num 2)]])]) "x.y"
      = Except.ok (Json.arr [Json.num 1, Json.num 2]) := by
  refine ⟨fun seg kvs => rfl, fun seg kvs => pyGet_missing kvs seg, fun seg l => rfl,
          fun seg kvs => rfl,
          ?_, fun seg seg2 rest kvs => rfl, fun seg seg2 rest l => rfl, ?_, rfl, rfl⟩
  · intro seg j h
    cases j <;> first | rfl | simp [isContainer] at h
  · intro seg seg2 rest j h
    cases j <;> first | rfl | simp [isContainer] at h

theorem claim_C4_witness :
    (∀ p ∈ [("b", Json.num 1)], Prod.fst p ≠ "a") ∧
    pyGet [("b", Json.num 1)] "a" = Json.null ∧
    isContainer (Json.num 5) = false ∧
    findSegs ["a"] (Json.num 5) = Except.ok (Json.num 5) := by
  have hm : ∀ p ∈ [("b", Json.num 1)], Prod.fst p ≠ "a" := by
    intro p hp
    simp only [List.mem_singleton] at hp
    subst hp
    decide
  exact ⟨hm, claim_C4_path_resolution.2.1 "a" [("b", Json.num 1)] hm, rfl,
         claim_C4_path_resolution.2.2.2.2.1 "a" (Json.num 5) rfl⟩

/-- Claim C5 counterexample: the claim says path resolution never raises
for any JSON node, but resolving the segment "a" against the list `[1]`
performs `1 .get("a")` and raises AttributeError. -/
theorem claim_C5_counterexample :
    find_element_by_key (Json.arr [Json.num 1]) "a"
      = Except.error PyErr.attributeError := rfl

/-- Claim C5 (amended): path resolution never raises on nodes in which
every list contains only objects — in particular missing keys never
raise; and the mid-path short-circuit on a non-object/non-list value
returns that value as-is. (A list holding a non-object element makes the
per-element lookup raise AttributeError, as the counterexample shows.) -/
theorem claim_C5_no_raise :
    (∀ (o : Json) (key : String), objArraysOnly o = true →
       ∃ v, find_element_by_key o key = Except.ok v) ∧
    (∀ (seg seg2 : String) (rest : List String) (j : Json), isContainer j = false →
       findSegs (seg :: seg2 :: rest) j = Except.ok j) := by
  refine ⟨fun o key h => findSegs_total (splitDot key) o h, ?_⟩
  intro seg seg2 rest j h
  cases j <;> first | rfl | simp [isContainer] at h

theorem claim_C5_witness :
    objArraysOnly (Json.obj [("a", Json.arr [Json.obj [("b", Json.num 7)]])]) = true ∧
    ∃ v, find_element_by_key
      (Json.obj [("a", Json.arr [Json.obj [("b", Json.num 7)]])]) "a.b"
      = Except.ok v :=
⟨rfl, claim_C5_no_raise.1 (Json.obj [("a", Json.arr [Json.obj [("b", Json.num 7)]])])
  "a.b" rfl⟩

/-- Claim C6: template projection mirrors the template's shape exactly
over any record and any template passing validation — literal leaves (the
`*` sentinel) are copied with the marker stripped ignoring the record,
path leaves resolve over the record, nested templates recurse — and on
the spec's example record and template it produces exactly the spec's
expected output. -/
theorem claim_C6_template_projection :
    (∀ (feed tmpl out : Json), validate_set_keys_input tmpl = Except.ok () →
       find_by_template feed tmpl = Except.ok out →
       mirrorsValue feed tmpl out = true) ∧
    find_by_template
      (Json.obj [("iocs", Json.obj [("network", Json.arr
        [Json.obj [("ip", Json.arr [Json.num 1, Json.num 2]), ("url", Json.str "u")],
         Json.obj [("ip", Json.arr [Json.num 3]), ("url", Json.str "")]])])])
      (Json.obj [("network", Json.obj [("ips", Json.str "iocs.network.ip")]),
                 ("url", Json.str "iocs.network.url")])
      = Except.ok (Json.obj
          [("network", Json.obj [("ips", Json.arr
              [Json.arr [Json.num 1, Json.num 2], Json.arr [Json.num 3]])]),
           ("url", Json.arr [Json.str "u", Json.str ""])]) := by
  refine ⟨?_, rfl⟩
  intro feed tmpl out hv hp
  cases tmpl with
  | obj kvs =>
    simp only [find_by_template] at hp
    cases hpe : projectEntries feed kvs with
    | error e => rw [hpe] at hp; simp [Except.map] at hp
    | ok l =>
      rw [hpe] at hp
      have hout : Json.obj l = out := by simpa [Except.map] using hp
      subst hout
      simpa [mirrorsValue] using
        projectEntries_mirrors feed kvs l
          (by simpa [validate_set_keys_input] using hv) hpe
  | str s => simp [find_by_template] at hp
  | null => simp [validate_set_keys_input] at hv
  | bool b => simp [validate_set_keys_input] at hv
  | num n => simp [validate_set_keys_input] at hv
  | arr l => simp [validate_set_keys_input] at hv

theorem claim_C6_witness :
    validate_set_keys_input (Json.obj [("type", Json.str "*malware"),
      ("name", Json.str "malware.name")]) = Except.ok () ∧
    find_by_template (Json.obj [("malware", Json.obj [("name", Json.str "x")])])
      (Json.obj [("type", Json.str "*malware"), ("name", Json.str "malware.name")])
      = Except.ok (Json.obj [("type", Json.str "malware"), ("name", Json.str "x")]) ∧
    mirrorsValue (Json.obj [("malware", Json.obj [("name", Json.str "x")])])
      (Json.obj [("type", Json.str "*malware"), ("name", Json.str "malware.name")])
      (Json.obj [("type", Json.str "malware"), ("name", Json.str "x")]) = true :=
⟨rfl, rfl, claim_C6_template_projection.1
  (Json.obj [("malware", Json.obj [("name", Json.str "x")])])
  (Json.obj [("type", Json.str "*malware"), ("name", Json.str "malware.name")])
  (Json.obj [("type", Json.str "malware"), ("name", Json.str "x")]) rfl rfl⟩

/-- Claim C7: IOC unpacking flattens arbitrarily nested lists depth-first
left-to-right into a flat list of the non-list leaves in traversal order,
keeping duplicates, and drops exactly the sentinel values
"255.255.255.255", "0.0.0.0", "" and null; in particular
`unpack([["1.2.3.4","0.0.0.0"],[""]]) == ["1.2.3.4"]`. -/
theorem claim_C7_unpack :
    (∀ j : Json, unpack_iocs j = (scalarLeaves j).filter (fun x => !isSentinel x)) ∧
    (∀ (j x : Json), x ∈ unpack_iocs j → isArr x = false) ∧
    (∀ x : Json, isSentinel x = true ↔
       (x = Json.str "255.255.255.255" ∨ x = Json.str "0.0.0.0" ∨
        x = Json.str "" ∨ x = Json.null)) ∧
    unpack_iocs (Json.arr [Json.arr [Json.str "1.2.3.4", Json.str "0.0.0.0"],
      Json.arr [Json.str ""]]) = [Json.str "1.2.3.4"] := by
  refine ⟨unpack_iocs_eq_filter, ?_, ?_, rfl⟩
  · intro j x h
    rw [unpack_iocs_eq_filter] at h
    exact scalarLeaves_not_arr j x (List.mem_of_mem_filter h)
  · intro x
    cases x <;> simp [isSentinel, or_assoc]

theorem claim_C7_witness :
    Json.str "1.2.3.4" ∈ unpack_iocs (Json.arr [Json.str "1.2.3.4"]) ∧
    isArr (Json.str "1.2.3.4") = false := by
  have hm : Json.str "1.2.3.4" ∈ unpack_iocs (Json.arr [Json.str "1.2.3.4"]) := by
    rw [show unpack_iocs (Json.arr [Json.str "1.2.3.4"]) = [Json.str "1.2.3.4"] from rfl]
    simp
  exact ⟨hm, claim_C7_unpack.2.1 (Json.arr [Json.str "1.2.3.4"]) (Json.str "1.2.3.4") hm⟩

theorem update_df_absent (i : GeneratorInfo) (su : Json) :
    paramLookup (sentParams (updateGetParams (clear_df i) su)) "df" = none := by
  apply paramLookup_sentParams_none
  intro v hv
  simp only [updateGetParams, base_get_params, clear_df, List.mem_append,
             List.mem_cons, List.mem_singleton, Prod.mk.injEq,
             List.not_mem_nil, or_false] at hv
  rcases hv with hv | hv
  · rcases hv with ⟨_, rfl⟩ | ⟨h, _⟩ | ⟨h, _⟩ | ⟨h, _⟩ | ⟨h, _⟩
    · rfl
    · exact absurd h (by decide)
    · exact absurd h (by decide)
    · exact absurd h (by decide)
    · exact absurd h (by decide)
  · exact absurd hv.1 (by decide)

/-- Claim C1: for every page sequence of non-empty portions followed by a
zero-size page, both the update and the search generator yield exactly
those portions in order, issue exactly one fetch per portion plus the
final fetch of the empty page (and nothing after it, whatever further
responses the transport would hold), and end with `total_amount` equal to
the sum of the portion sizes. -/
theorem claim_C1_pagination_termination :
    ∀ (info : GeneratorInfo) (sequpdate : Json) (chunks : List Json)
      (lastChunk : Json) (rest : List Json) (ps : List ParserObj) (p0 : ParserObj),
    parseAll chunks = Except.ok ps →
    (∀ p ∈ ps, p.portion_size ≠ 0) →
    parserInit lastChunk = Except.ok p0 → p0.portion_size = 0 →
    (∃ r, runUpdateGenerator info sequpdate (chunks ++ lastChunk :: rest)
        = Except.ok r ∧
       r.portions = ps ∧ r.fetches.length = chunks.length + 1 ∧
       r.total_amount = (ps.map (fun p => p.portion_size)).sum) ∧
    (∃ r, runSearchGenerator info (chunks ++ lastChunk :: rest) = Except.ok r ∧
       r.portions = ps ∧ r.fetches.length = chunks.length + 1 ∧
       r.total_amount = (ps.map (fun p => p.portion_size)).sum) := by
  intro info su chunks lastChunk rest ps p0 hm hpos h0 hsz
  constructor
  · have h := update_create_run info.collection_name chunks ps info su 0
      lastChunk p0 rest hm hpos h0 hsz
    exact ⟨_, h, rfl, by simp [parseAll_length hm], by simp⟩
  · have h := search_create_run info.collection_name chunks ps info Json.null 0
      lastChunk p0 rest hm hpos h0 hsz
    exact ⟨_, h, rfl, by simp [parseAll_length hm], by simp⟩

theorem claim_C1_witness :
    parseAll [pageU 100, pageU 200] = Except.ok [portionU 100, portionU 200] ∧
    (∀ p ∈ [portionU 100, portionU 200], p.portion_size ≠ 0) ∧
    parserInit pageEmptyEx = Except.ok p0Ex ∧ p0Ex.portion_size = 0 ∧
    ((∃ r, runUpdateGenerator infoEx (Json.num 5)
         ([pageU 100, pageU 200] ++ pageEmptyEx :: []) = Except.ok r ∧
       r.portions = [portionU 100, portionU 200] ∧ r.fetches.length = 3 ∧
       r.total_amount = ([portionU 100, portionU 200].map
         (fun p => p.portion_size)).sum) ∧
     (∃ r, runSearchGenerator infoEx ([pageU 100, pageU 200] ++ pageEmptyEx :: [])
         = Except.ok r ∧
       r.portions = [portionU 100, portionU 200] ∧ r.fetches.length = 3 ∧
       r.total_amount = ([portionU 100, portionU 200].map
         (fun p => p.portion_size)).sum)) := by
  have hpos : ∀ p ∈ [portionU 100, portionU 200], p.portion_size ≠ 0 := by
    intro p hp
    simp only [List.mem_cons, List.mem_singleton] at hp
    rcases hp with rfl | rfl | h
    · simp [portionU]
    · simp [portionU]
    · simp at h
  exact ⟨rfl, hpos, rfl, rfl,
    claim_C1_pagination_termination infoEx (Json.num 5) [pageU 100, pageU 200]
      pageEmptyEx [] [portionU 100, portionU 200] p0Ex rfl hpos rfl rfl⟩

theorem search_df_dt_q_absent (i : GeneratorInfo) (rid : Json) :
    paramLookup (sentParams (searchGetParams (clear_df_dt_q i) rid)) "df" = none ∧
    paramLookup (sentParams (searchGetParams (clear_df_dt_q i) rid)) "dt" = none ∧
    paramLookup (sentParams (searchGetParams (clear_df_dt_q i) rid)) "q" = none := by
  refine ⟨?_, ?_, ?_⟩ <;>
  · apply paramLookup_sentParams_none
    intro v hv
    simp only [searchGetParams, base_get_params, clear_df_dt_q, List.mem_append,
               List.mem_cons, List.mem_singleton, Prod.mk.injEq,
               List.not_mem_nil, or_false] at hv
    rcases hv with hv | hv
    · rcases hv with ⟨h, hh⟩ | ⟨h, hh⟩ | ⟨h, hh⟩ | ⟨h, hh⟩ | ⟨h, hh⟩ <;>
        first
          | (subst hh; rfl)
          | exact absurd h (by decide)
    · exact absurd hv.1 (by decide)

/-- Claim C2: in an update session, every fetch after a non-empty portion
carries `seqUpdate` equal to that portion's cursor; the raw `df` param is
None and absent from the wire even when `date_from` was supplied at
creation; `dt`, `q`, `limit` and `apply_hunting_rules` stay exactly as
configured. -/
theorem claim_C2_update_cursor_advance :
    ∀ (info : GeneratorInfo) (sequpdate : Json) (chunks : List Json)
      (lastChunk : Json) (rest : List Json) (ps : List ParserObj) (p0 : ParserObj),
    parseAll chunks = Except.ok ps →
    (∀ p ∈ ps, p.portion_size ≠ 0) →
    parserInit lastChunk = Except.ok p0 → p0.portion_size = 0 →
    ∃ r, runUpdateGenerator info sequpdate (chunks ++ lastChunk :: rest)
        = Except.ok r ∧
      r.portions = ps ∧
      r.fetches = ⟨info.collection_name ++ "/updated",
                   updateGetParams info sequpdate⟩ ::
        ps.map (fun p => ⟨info.collection_name ++ "/updated",
                          updateGetParams (clear_df info) p.sequpdate⟩) ∧
      (∀ p : ParserObj,
        paramLookup (updateGetParams (clear_df info) p.sequpdate) "seqUpdate"
          = some p.sequpdate ∧
        paramLookup (updateGetParams (clear_df info) p.sequpdate) "df"
          = some Json.null ∧
        paramLookup (sentParams (updateGetParams (clear_df info) p.sequpdate)) "df"
          = none ∧
        paramLookup (updateGetParams (clear_df info) p.sequpdate) "dt"
          = some info.date_to ∧
        paramLookup (updateGetParams (clear_df info) p.sequpdate) "q"
          = some info.query ∧
        paramLookup (updateGetParams (clear_df info) p.sequpdate) "limit"
          = some info.limit ∧
        paramLookup (updateGetParams (clear_df info) p.sequpdate)
          "apply_hunting_rules" = some info.apply_hunting_rules) := by
  intro info su chunks lastChunk rest ps p0 hm hpos h0 hsz
  have h := update_create_run info.collection_name chunks ps info su 0
    lastChunk p0 rest hm hpos h0 hsz
  exact ⟨_, h, rfl, rfl,
    fun p => ⟨rfl, rfl, update_df_absent info p.sequpdate, rfl, rfl, rfl, rfl⟩⟩

theorem claim_C2_witness :
    parseAll [pageU 100] = Except.ok [portionU 100] ∧
    (∀ p ∈ [portionU 100], p.portion_size ≠ 0) ∧
    parserInit pageEmptyEx = Except.ok p0Ex ∧ p0Ex.portion_size = 0 ∧
    (∃ r, runUpdateGenerator infoEx (Json.num 5) ([pageU 100] ++ pageEmptyEx :: [])
        = Except.ok r ∧
      r.portions = [portionU 100] ∧
      r.fetches = ⟨infoEx.collection_name ++ "/updated",
                   updateGetParams infoEx (Json.num 5)⟩ ::
        [portionU 100].map (fun p => ⟨infoEx.collection_name ++ "/updated",
                          updateGetParams (clear_df infoEx) p.sequpdate⟩) ∧
      (∀ p : ParserObj,
        paramLookup (updateGetParams (clear_df infoEx) p.sequpdate) "seqUpdate"
          = some p.sequpdate ∧
        paramLookup (updateGetParams (clear_df infoEx) p.sequpdate) "df"
          = some Json.null ∧
        paramLookup (sentParams (updateGetParams (clear_df infoEx) p.sequpdate)) "df"
          = none ∧
        paramLookup (updateGetParams (clear_df infoEx) p.sequpdate) "dt"
          = some infoEx.date_to ∧
        paramLookup (updateGetParams (clear_df infoEx) p.sequpdate) "q"
          = some infoEx.query ∧
        paramLookup (updateGetParams (clear_df infoEx) p.sequpdate) "limit"
          = some infoEx.limit ∧
        paramLookup (updateGetParams (clear_df infoEx) p.sequpdate)
          "apply_hunting_rules" = some infoEx.apply_hunting_rules)) := by
  have hpos : ∀ p ∈ [portionU 100], p.portion_size ≠ 0 := by
    intro p hp
    simp only [List.mem_singleton] at hp
    subst hp
    simp [portionU]
  exact ⟨rfl, hpos, rfl, rfl,
    claim_C2_update_cursor_advance infoEx (Json.num 5) [pageU 100] pageEmptyEx []
      [portionU 100] p0Ex rfl hpos rfl rfl⟩

/-- Claim C3: in a search session, every fetch after a non-empty portion
carries `resultId` equal to that portion's result cursor, the raw `df`,
`dt` and `q` params are all None, and none of the three reaches the wire:
all three one-shot filters are cleared at once after the first portion. -/
theorem claim_C3_search_cursor_advance :
    ∀ (info : GeneratorInfo) (chunks : List Json)
      (lastChunk : Json) (rest : List Json) (ps : List ParserObj) (p0 : ParserObj),
    parseAll chunks = Except.ok ps →
    (∀ p ∈ ps, p.portion_size ≠ 0) →
    parserInit lastChunk = Except.ok p0 → p0.portion_size = 0 →
    ∃ r, runSearchGenerator info (chunks ++ lastChunk :: rest) = Except.ok r ∧
      r.portions = ps ∧
      r.fetches = ⟨info.collection_name, searchGetParams info Json.null⟩ ::
        ps.map (fun p => ⟨info.collection_name,
                          searchGetParams (clear_df_dt_q info) p.result_id⟩) ∧
      (∀ p : ParserObj,
        paramLookup (searchGetParams (clear_df_dt_q info) p.result_id) "resultId"
          = some p.result_id ∧
        paramLookup (searchGetParams (clear_df_dt_q info) p.result_id) "df"
          = some Json.null ∧
        paramLookup (searchGetParams (clear_df_dt_q info) p.result_id) "dt"
          = some Json.null ∧
        paramLookup (searchGetParams (clear_df_dt_q info) p.result_id) "q"
          = some Json.null ∧
        paramLookup (sentParams (searchGetParams (clear_df_dt_q info) p.result_id))
          "df" = none ∧
        paramLookup (sentParams (searchGetParams (clear_df_dt_q info) p.result_id))
          "dt" = none ∧
        paramLookup (sentParams (searchGetParams (clear_df_dt_q info) p.result_id))
          "q" = none) := by
  intro info chunks lastChunk rest ps p0 hm hpos h0 hsz
  have h := search_create_run info.collection_name chunks ps info Json.null 0
    lastChunk p0 rest hm hpos h0 hsz
  refine ⟨_, h, rfl, rfl, fun p => ?_⟩
  obtain ⟨h1, h2, h3⟩ := search_df_dt_q_absent info p.result_id
  exact ⟨rfl, rfl, rfl, rfl, h1, h2, h3⟩

theorem claim_C3_witness :
    parseAll [pageU 100] = Except.ok [portionU 100] ∧
    (∀ p ∈ [portionU 100], p.portion_size ≠ 0) ∧
    parserInit pageEmptyEx = Except.ok p0Ex ∧ p0Ex.portion_size = 0 ∧
    (∃ r, runSearchGenerator infoEx ([pageU 100] ++ pageEmptyEx :: [])
        = Except.ok r ∧
      r.portions = [portionU 100] ∧
      r.fetches = ⟨infoEx.collection_name, searchGetParams infoEx Json.null⟩ ::
        [portionU 100].map (fun p => ⟨infoEx.collection_name,
                          searchGetParams (clear_df_dt_q infoEx) p.result_id⟩) ∧
      (∀ p : ParserObj,
        paramLookup (searchGetParams (clear_df_dt_q infoEx) p.result_id) "resultId"
          = some p.result_id ∧
        paramLookup (searchGetParams (clear_df_dt_q infoEx) p.result_id) "df"
          = some Json.null ∧
        paramLookup (searchGetParams (clear_df_dt_q infoEx) p.result_id) "dt"
          = some Json.null ∧
        paramLookup (searchGetParams (clear_df_dt_q infoEx) p.result_id) "q"
          = some Json.null ∧
        paramLookup (sentParams (searchGetParams (clear_df_dt_q infoEx) p.result_id))
          "df" = none ∧
        paramLookup (sentParams (searchGetParams (clear_df_dt_q infoEx) p.result_id))
          "dt" = none ∧
        paramLookup (sentParams (searchGetParams (clear_df_dt_q infoEx) p.result_id))
          "q" = none)) := by
  have hpos : ∀ p ∈ [portionU 100], p.portion_size ≠ 0 := by
    intro p hp
    simp only [List.mem_singleton] at hp
    subst hp
    simp [portionU]
  exact ⟨rfl, hpos, rfl, rfl,
    claim_C3_search_cursor_advance infoEx [pageU 100] pageEmptyEx []
      [portionU 100] p0Ex rfl hpos rfl rfl⟩

/-- Claim C8 counterexample: on a record whose filter path resolves to a
list, `_keys_found` raises the builtin ValueError ("Value to check should
be String not List."), not the library's InputException; the claim as
stated — that an InputError is raised — is therefore false. -/
theorem claim_C8_counterexample :
    keys_found (Json.obj [("a", Json.arr [Json.num 1])]) ["a"] [Json.str "x"]
      = Except.error (PyErr.valueError "Value to check should be String not List.") ∧
    raisedInputException
      (keys_found (Json.obj [("a", Json.arr [Json.num 1])]) ["a"] [Json.str "x"])
      = false := ⟨rfl, rfl⟩

/-- Claim C8 (amended): when a record filter's path resolves to a list
during an allow-list membership check, the filter fails by raising the
builtin ValueError with message "Value to check should be String not
List." (not the library's InputException), for every such record and
filter spec. -/
theorem claim_C8_nonscalar_raises :
    ∀ (feed : Json) (road : List String) (cl : List Json) (l : List Json),
    walkRoad feed road = Except.ok (Json.arr l) →
    keys_found feed road cl
      = Except.error (PyErr.valueError "Value to check should be String not List.") := by
  intro feed road cl l hw
  simp [keys_found, Bind.bind, Except.bind, hw]

theorem claim_C8_witness :
    walkRoad (Json.obj [("a", Json.arr [Json.num 1])]) ["a"]
      = Except.ok (Json.arr [Json.num 1]) ∧
    keys_found (Json.obj [("a", Json.arr [Json.num 1])]) ["a"] [Json.num 2]
      = Except.error (PyErr.valueError "Value to check should be String not List.") :=
⟨rfl, claim_C8_nonscalar_raises (Json.obj [("a", Json.arr [Json.num 1])]) ["a"]
  [Json.num 2] [Json.num 1] rfl⟩

/-- Claim C9: creating an update or search session for a collection name
outside the catalog, or an update session for a search-only collection,
fails with the library's InputException during `GeneratorInfo` validation
— before the generator (a function of the transport's pages) even exists,
so no fetch is ever issued. -/
theorem claim_C9_invalid_collection :
    ∀ (strptime_ok : String → String → Bool) (cn : String)
      (df dt q su lim ahr k ik : Json),
    (cn ∉ collectionNames →
       (∃ m, create_update_generator strptime_ok cn df dt q su lim ahr k ik
          = Except.error (PyErr.inputException m)) ∧
       (∃ m, create_search_generator strptime_ok cn df dt q lim ahr k ik
          = Except.error (PyErr.inputException m))) ∧
    (cn ∈ ONLY_SEARCH_COLLECTIONS →
       ∃ m, create_update_generator strptime_ok cn df dt q su lim ahr k ik
          = Except.error (PyErr.inputException m)) := by
  intro strptime_ok cn df dt q su lim ahr k ik
  constructor
  · intro hn
    constructor
    · by_cases hos : cn ∈ ONLY_SEARCH_COLLECTIONS
      · exact ⟨cn ++ " collection must be used only with a search generator.",
          by simp [create_update_generator, mkGeneratorInfo,
                   validate_collection_name, hos, Bind.bind, Except.bind]⟩
      · exact ⟨"Invalid collection name " ++ cn ++ ", should be one of this "
            ++ String.intercalate ", " collectionNames,
          by simp [create_update_generator, mkGeneratorInfo,
                   validate_collection_name, hos, hn, Bind.bind, Except.bind]⟩
    · exact ⟨"Invalid collection name " ++ cn ++ ", should be one of this "
          ++ String.intercalate ", " collectionNames,
        by simp [create_search_generator, mkGeneratorInfo,
                 validate_collection_name, hn, Bind.bind, Except.bind]⟩
  · intro hos
    exact ⟨cn ++ " collection must be used only with a search generator.",
      by simp [create_update_generator, mkGeneratorInfo,
               validate_collection_name, hos, Bind.bind, Except.bind]⟩

theorem claim_C9_witness :
    "no/such" ∉ collectionNames ∧
    "compromised/breached" ∈ ONLY_SEARCH_COLLECTIONS ∧
    (∃ m, create_update_generator (fun _ _ => true) "no/such" Json.null Json.null
       Json.null Json.null Json.null Json.null Json.null Json.null
       = Except.error (PyErr.inputException m)) ∧
    (∃ m, create_search_generator (fun _ _ => true) "no/such" Json.null Json.null
       Json.null Json.null Json.null Json.null Json.null
       = Except.error (PyErr.inputException m)) ∧
    (∃ m, create_update_generator (fun _ _ => true) "compromised/breached" Json.null
       Json.null Json.null Json.null Json.null Json.null Json.null Json.null
       = Except.error (PyErr.inputException m)) := by
  have hn : "no/such" ∉ collectionNames := by decide
  have hb : "compromised/breached" ∈ ONLY_SEARCH_COLLECTIONS := by decide
  have h1 := (claim_C9_invalid_collection (fun _ _ => true) "no/such" Json.null
    Json.null Json.null Json.null Json.null Json.null Json.null Json.null).1 hn
  have h2 := (claim_C9_invalid_collection (fun _ _ => true) "compromised/breached"
    Json.null Json.null Json.null Json.null Json.null Json.null Json.null
    Json.null).2 hb
  exact ⟨hn, hb, h1.1, h1.2, h2⟩

theorem keys_found_empty_false : ∀ (feed : Json) (road : List String) (v : Json),
    walkRoad feed road = Except.ok v → isArr v = false →
    keys_found feed road [] = Except.ok false := by
  intro feed road v hw hv
  simp only [keys_found, Bind.bind, Except.bind, hw]
  cases v <;> simp_all [isArr]

theorem filterKeep_accept_empty (feed : Json) (road : List String) (v : Json)
    (hw : walkRoad feed road = Except.ok v) (hv : isArr v = false) :
    filterKeep feed road [] false false = Except.ok false := by
  simp [filterKeep, keys_found_empty_false feed road v hw hv,
        Bind.bind, Except.bind]

theorem filterKeep_ignore_empty (feed : Json) (road : List String) (v : Json)
    (ce : Bool) (hw : walkRoad feed road = Except.ok v) (hv : isArr v = false) :
    filterKeep feed road [] true ce = Except.ok true := by
  simp [filterKeep, keys_found_empty_false feed road v hw hv,
        Bind.bind, Except.bind]

theorem parsePortionLoop_accept_empty :
    ∀ (effKeys : Json) (roadStr : String) (feeds : List Json),
    (∀ feed ∈ feeds, walkNonList roadStr feed) →
    parsePortionLoop effKeys (some (roadStr, [])) false false feeds
      = Except.ok [] := by
  intro effKeys roadStr feeds
  induction feeds with
  | nil => intro _; rfl
  | cons feed rest ih =>
    intro h
    obtain ⟨v, hw, hv⟩ := h feed (by simp)
    have hk := filterKeep_accept_empty feed (splitDot roadStr) v hw hv
    have hrest := ih (fun f hf => h f (List.mem_cons_of_mem _ hf))
    simp only [parsePortionLoop]
    rw [hk]
    simpa [Bind.bind, Except.bind] using hrest

theorem parsePortionLoop_ignore_eq :
    ∀ (effKeys : Json) (roadStr : String) (ce : Bool) (feeds : List Json),
    (∀ feed ∈ feeds, walkNonList roadStr feed) →
    parsePortionLoop effKeys (some (roadStr, [])) true ce feeds
      = parsePortionLoop effKeys none true ce feeds := by
  intro effKeys roadStr ce feeds
  induction feeds with
  | nil => intro _; rfl
  | cons feed rest ih =>
    intro h
    obtain ⟨v, hw, hv⟩ := h feed (by simp)
    have hk := filterKeep_ignore_empty feed (splitDot roadStr) v ce hw hv
    have hrest := ih (fun f hf => h f (List.mem_cons_of_mem _ hf))
    simp only [parsePortionLoop]
    rw [hk, hrest]

theorem getIocsFeedLoop_accept_empty :
    ∀ (v : Json) (roadStr : String) (feeds : List Json),
    (∀ feed ∈ feeds, walkNonList roadStr feed) →
    getIocsFeedLoop v (some (roadStr, [])) false false feeds = Except.ok [] := by
  intro v roadStr feeds
  induction feeds with
  | nil => intro _; rfl
  | cons feed rest ih =>
    intro h
    obtain ⟨w, hw, hv⟩ := h feed (by simp)
    have hk := filterKeep_accept_empty feed (splitDot roadStr) w hw hv
    have hrest := ih (fun f hf => h f (List.mem_cons_of_mem _ hf))
    simp only [getIocsFeedLoop]
    rw [hk]
    simpa [Bind.bind, Except.bind] using hrest

theorem getIocsFeedLoop_ignore_eq :
    ∀ (v : Json) (roadStr : String) (ce : Bool) (feeds : List Json),
    (∀ feed ∈ feeds, walkNonList roadStr feed) →
    getIocsFeedLoop v (some (roadStr, [])) true ce feeds
      = getIocsFeedLoop v none true ce feeds := by
  intro v roadStr ce feeds
  induction feeds with
  | nil => intro _; rfl
  | cons feed rest ih =>
    intro h
    obtain ⟨w, hw, hv⟩ := h feed (by simp)
    have hk := filterKeep_ignore_empty feed (splitDot roadStr) w ce hw hv
    have hrest := ih (fun f hf => h f (List.mem_cons_of_mem _ hf))
    simp only [getIocsFeedLoop]
    rw [hk, hrest]

theorem getIocsKeysLoop_accept_empty :
    ∀ (feeds : List Json) (roadStr : String) (kvs : List (String × Json)),
    (∀ feed ∈ feeds, walkNonList roadStr feed) →
    getIocsKeysLoop feeds (some (roadStr, [])) false false kvs
      = Except.ok (kvs.map (fun kv => (kv.1, ([] : List Json)))) := by
  intro feeds roadStr kvs h
  induction kvs with
  | nil => rfl
  | cons kv rest ih =>
    obtain ⟨k, v⟩ := kv
    simp only [getIocsKeysLoop]
    rw [getIocsFeedLoop_accept_empty v roadStr feeds h, ih]
    rfl

theorem getIocsKeysLoop_ignore_eq :
    ∀ (feeds : List Json) (roadStr : String) (ce : Bool)
      (kvs : List (String × Json)),
    (∀ feed ∈ feeds, walkNonList roadStr feed) →
    getIocsKeysLoop feeds (some (roadStr, [])) true ce kvs
      = getIocsKeysLoop feeds none true ce kvs := by
  intro feeds roadStr ce kvs h
  induction kvs with
  | nil => rfl
  | cons kv rest ih =>
    obtain ⟨k, v⟩ := kv
    simp only [getIocsKeysLoop]
    rw [getIocsFeedLoop_ignore_eq v roadStr ce feeds h, ih]

/-- Claim C10 counterexample: with an empty allow-list, `_keys_found` is
claimed to return false regardless of what the path resolves to; but on a
record whose path resolves to a list it raises ValueError instead of
returning. -/
theorem claim_C10_counterexample :
    keys_found (Json.obj [("b", Json.arr [Json.num 1])]) ["b"] []
      = Except.error (PyErr.valueError "Value to check should be String not List.")
    ∧ keys_found (Json.obj [("b", Json.arr [Json.num 1])]) ["b"] []
      ≠ Except.ok false := ⟨rfl, fun h => Except.noConfusion h⟩

/-- Claim C10 (amended): for every record and filter spec with an empty
allow-list whose road-walk reaches a non-list value, `_keys_found`
returns false; consequently, provided the walk reaches a non-list value
on every record of the portion, in ACCEPT_ONLY_IF_FOUND mode (ignore and
check_existence both false) `parse_portion` returns the empty list and
`get_iocs` maps every configured IOC key to the empty list, and in
IGNORE_IF_FOUND mode (ignore true) both behave exactly as with no filter.
(When the walk reaches a list, ValueError is raised instead — see the
counterexample.) -/
theorem claim_C10_empty_allowlist :
    (∀ (feed : Json) (road : List String) (v : Json),
       walkRoad feed road = Except.ok v → isArr v = false →
       keys_found feed road [] = Except.ok false) ∧
    (∀ (p : ParserObj) (selfKeys keysArg : Json) (roadStr : String)
       (feeds : List Json),
       (Json.truthy selfKeys || Json.truthy keysArg) = true →
       (Json.truthy keysArg = true →
          validate_set_keys_input keysArg = Except.ok ()) →
       pyIter p.items = Except.ok feeds →
       (∀ feed ∈ feeds, walkNonList roadStr feed) →
       parse_portion p selfKeys keysArg (some (roadStr, [])) false false
         = Except.ok []) ∧
    (∀ (p : ParserObj) (selfKeys keysArg : Json) (roadStr : String)
       (feeds : List Json),
       pyIter p.items = Except.ok feeds →
       (∀ feed ∈ feeds, walkNonList roadStr feed) →
       parse_portion p selfKeys keysArg (some (roadStr, [])) true false
         = parse_portion p selfKeys keysArg none true false) ∧
    (∀ (p : ParserObj) (selfIocs keysArg : Json) (roadStr : String)
       (feeds : List Json) (kvs : List (String × Json)),
       (Json.truthy selfIocs || Json.truthy keysArg) = true →
       (Json.truthy keysArg = true →
          validate_set_iocs_keys_input keysArg = Except.ok ()) →
       (if Json.truthy keysArg then keysArg else selfIocs) = Json.obj kvs →
       pyIter p.items = Except.ok feeds →
       (∀ feed ∈ feeds, walkNonList roadStr feed) →
       get_iocs p selfIocs keysArg (some (roadStr, [])) false false
         = Except.ok (kvs.map (fun kv => (kv.1, ([] : List Json))))) ∧
    (∀ (p : ParserObj) (selfIocs keysArg : Json) (roadStr : String)
       (feeds : List Json),
       pyIter p.items = Except.ok feeds →
       (∀ feed ∈ feeds, walkNonList roadStr feed) →
       get_iocs p selfIocs keysArg (some (roadStr, [])) true false
         = get_iocs p selfIocs keysArg none true false) := by
  refine ⟨keys_found_empty_false, ?_, ?_, ?_, ?_⟩
  · intro p selfKeys keysArg roadStr feeds h1 h2 h3 h4
    have hc : (!Json.truthy selfKeys && !Json.truthy keysArg) = false := by
      rw [← Bool.not_or, h1]
      rfl
    simp only [parse_portion, hc, Bool.false_eq_true, if_false]
    cases hka : Json.truthy keysArg with
    | true =>
      simp [hka, h2 hka, Bind.bind, Except.bind, h3,
            parsePortionLoop_accept_empty keysArg roadStr feeds h4]
    | false =>
      simp [hka, Bind.bind, Except.bind, h3,
            parsePortionLoop_accept_empty selfKeys roadStr feeds h4]
  · intro p selfKeys keysArg roadStr feeds h3 h4
    simp only [parse_portion]
    by_cases hc : (!Json.truthy selfKeys && !Json.truthy keysArg) = true
    · simp [hc]
    · have hc2 : (!Json.truthy selfKeys && !Json.truthy keysArg) = false := by
        simpa using hc
      simp only [hc2, Bool.false_eq_true, if_false]
      cases hka : Json.truthy keysArg with
      | true =>
        cases hval : validate_set_keys_input keysArg with
        | error e => simp [hval, Bind.bind, Except.bind]
        | ok u =>
          cases u
          simp [hval, Bind.bind, Except.bind, h3,
                parsePortionLoop_ignore_eq keysArg roadStr false feeds h4]
      | false =>
        simp [Bind.bind, Except.bind, h3,
              parsePortionLoop_ignore_eq selfKeys roadStr false feeds h4]
  · intro p selfIocs keysArg roadStr feeds kvs h1 h2 hik h3 h4
    have hc : (!Json.truthy selfIocs && !Json.truthy keysArg) = false := by
      rw [← Bool.not_or, h1]
      rfl
    simp only [get_iocs, hc, Bool.false_eq_true, if_false]
    cases hka : Json.truthy keysArg with
    | true =>
      rw [hka] at hik
      simp only [if_true] at hik
      have hval := h2 hka
      rw [hik] at hval
      simp [hka, hval, Bind.bind, Except.bind, hik, h3,
            getIocsKeysLoop_accept_empty feeds roadStr kvs h4]
    | false =>
      rw [hka] at hik
      simp only [Bool.false_eq_true, if_false] at hik
      simp [hka, Bind.bind, Except.bind, hik, h3,
            getIocsKeysLoop_accept_empty feeds roadStr kvs h4]
  · intro p selfIocs keysArg roadStr feeds h3 h4
    simp only [get_iocs]
    by_cases hc : (!Json.truthy selfIocs && !Json.truthy keysArg) = true
    · simp [hc]
    · have hc2 : (!Json.truthy selfIocs && !Json.truthy keysArg) = false := by
        simpa using hc
      simp only [hc2, Bool.false_eq_true, if_false]
      cases hka : Json.truthy keysArg with
      | true =>
        cases hval : validate_set_iocs_keys_input keysArg with
        | error e => simp [hval, Bind.bind, Except.bind]
        | ok u =>
          cases u
          cases hik : keysArg with
          | obj kvs =>
            simp [hval, Bind.bind, Except.bind, h3,
                  getIocsKeysLoop_ignore_eq feeds roadStr false kvs h4]
          | null => simp [hval, Bind.bind, Except.bind]
          | bool b => simp [hval, Bind.bind, Except.bind]
          | num n => simp [hval, Bind.bind, Except.bind]
          | str s => simp [hval, Bind.bind, Except.bind]
          | arr l => simp [hval, Bind.bind, Except.bind]
      | false =>
        cases hik : selfIocs with
        | obj kvs =>
          simp [Bind.bind, Except.bind, h3,
                getIocsKeysLoop_ignore_eq feeds roadStr false kvs h4]
        | null => simp [Bind.bind, Except.bind]
        | bool b => simp [Bind.bind, Except.bind]
        | num n => simp [Bind.bind, Except.bind]
        | str s => simp [Bind.bind, Except.bind]
        | arr l => simp [Bind.bind, Except.bind]

theorem claim_C10_witness :
    (Json.truthy (Json.obj [("k", Json.str "x")]) || Json.truthy Json.null) = true ∧
    pyIter pEx10.items = Except.ok [feedA] ∧
    (∀ feed ∈ [feedA], walkNonList "sev" feed) ∧
    parse_portion pEx10 (Json.obj [("k", Json.str "x")]) Json.null
      (some ("sev", [])) false false = Except.ok [] ∧
    get_iocs pEx10 (Json.obj [("k", Json.str "x")]) Json.null
      (some ("sev", [])) false false = Except.ok [("k", [])] := by
  have hw : ∀ feed ∈ [feedA], walkNonList "sev" feed := by
    intro feed hf
    simp only [List.mem_singleton] at hf
    subst hf
    exact ⟨Json.str "low", rfl, rfl⟩
  refine ⟨rfl, rfl, hw, ?_, ?_⟩
  · exact claim_C10_empty_allowlist.2.1 pEx10 (Json.obj [("k", Json.str "x")])
      Json.null "sev" [feedA] rfl (fun h => by cases h) rfl hw
  · exact claim_C10_empty_allowlist.2.2.2.1 pEx10 (Json.obj [("k", Json.str "x")])
      Json.null "sev" [feedA] [("k", Json.str "x")] rfl (fun h => by cases h)
      rfl rfl hw
